import Mathlib

/-!
Verification of the core physics/trail logic of the solar-system repository.

The repository contains three source variants:
* `PartA` — the gravity demo in `src/unnamed/part_000` (first file): per-planet
  gravitational update with a `MAX_FORCE` clamp (`updatePlanetPositions`).
* `PartB` — the stylized demo in `src/unnamed/part_000` (second file): planets
  advance a polar `angle` by `speed * delta * speedMultiplier`; a GUI slider
  stores a `speedMultiplier` on the system.
* `Solar` — `src/src/solar-system.js`: gravitational `Planet.update` with trail
  maintenance (`updateTrail`), `reset`, and `createOrbit`.

Vectors are embedded as `Vec3 ℝ` (the code uses `THREE.Vector3` with
`length`/`normalize` backed by real square roots) or, for the purely rational
`PartB` state, as plain rationals.  `THREE.Vector3.normalize` divides by
`length() || 1`, which is modelled by the explicit `if` in `Vec3.normalize`.
-/

/-- 3-component vector mirroring `THREE.Vector3`. -/
structure Vec3 (α : Type) where
  x : α
  y : α
  z : α

instance {α : Type} [Add α] : Add (Vec3 α) :=
  ⟨fun a b => ⟨a.x + b.x, a.y + b.y, a.z + b.z⟩⟩

instance {α : Type} [Sub α] : Sub (Vec3 α) :=
  ⟨fun a b => ⟨a.x - b.x, a.y - b.y, a.z - b.z⟩⟩

instance {α : Type} [Mul α] : SMul α (Vec3 α) :=
  ⟨fun c v => ⟨c * v.x, c * v.y, c * v.z⟩⟩

/-- `THREE.Vector3.divideScalar`. -/
def Vec3.divScalar {α : Type} [Div α] (v : Vec3 α) (s : α) : Vec3 α :=
  ⟨v.x / s, v.y / s, v.z / s⟩

/-- `Planet.updateTrail` core (solar-system.js lines 168-173): push the new
point, then drop the oldest point once the length exceeds `maxPoints`. -/
def pushTrail {α : Type} (maxPoints : ℕ) (pts : List α) (pt : α) : List α :=
  let pts' := pts ++ [pt]
  if maxPoints < pts'.length then pts'.tail else pts'

namespace PartB

/-- Planet of the stylized variant (part_000, second file).  The constructor
draws `angle` with `Math.random()`; that draw happens once at construction and
is modelled as the `angle` argument. -/
structure Planet where
  name : String
  size : ℚ
  distance : ℚ
  color : ℕ
  speed : ℚ
  angle : ℚ

/-- `Planet.update(delta, speedMultiplier)` (part_000 lines 212-215):
`this.angle += this.speed * delta * speedMultiplier`.  The source performs no
validation of `delta` or `speedMultiplier`. -/
def Planet.update (delta speedMultiplier : ℚ) (p : Planet) : Planet :=
  { p with angle := p.angle + p.speed * delta * speedMultiplier }

/-- `SolarSystem` state of the stylized variant: planet list and the speed
multiplier stored by the GUI handler. -/
structure System where
  planets : List Planet
  speedMultiplier : ℚ

/-- One `animate` physics pass (part_000 lines 300-312): each planet is updated
in order with the current speed multiplier. -/
def System.step (delta : ℚ) (s : System) : System :=
  { s with planets := s.planets.map (Planet.update delta s.speedMultiplier) }

/-- The GUI `onChange` handler (part_000 lines 284-289): stores the given value
unconditionally; no sign check is performed in code (the slider widget itself
is configured with range 0..500). -/
def setSpeedMultiplier (s : System) (value : ℚ) : System :=
  { s with speedMultiplier := value }

end PartB

/-- The `Mercury` planet of the stylized variant
(`new Planet('Mercury', 2, 15, 0xaaaaaa, 0.02)`), with the random initial
angle draw modelled as `0`. -/
def mercuryB : PartB.Planet :=
  { name := "Mercury", size := 2, distance := 15, color := 0xaaaaaa,
    speed := 0.02, angle := 0 }

/-- A concrete stylized system holding `mercuryB` at speed multiplier 1. -/
def sysB : PartB.System := ⟨[mercuryB], 1⟩

noncomputable section

/-- `THREE.Vector3.length()`: `sqrt(x*x + y*y + z*z)`. -/
def norm3 (v : Vec3 ℝ) : ℝ := Real.sqrt (v.x * v.x + v.y * v.y + v.z * v.z)

/-- `THREE.Vector3.normalize()`: `divideScalar(length() || 1)` — for a zero
vector the divisor is 1, so the zero vector is returned unchanged. -/
def Vec3.normalize (v : Vec3 ℝ) : Vec3 ℝ :=
  v.divScalar (if norm3 v = 0 then 1 else norm3 v)

/-- `THREE.Vector3.distanceTo`. -/
def dist3 (a b : Vec3 ℝ) : ℝ := norm3 (a - b)

/-- Vertex `s` of `THREE.CircleGeometry(radius, segments)` (theta runs from 0
to 2π in `segments` equal increments). -/
def circleVertex (radius : ℝ) (segments s : ℕ) : Vec3 ℝ :=
  ⟨radius * Real.cos ((s : ℝ) / (segments : ℝ) * (2 * Real.pi)),
   radius * Real.sin ((s : ℝ) / (segments : ℝ) * (2 * Real.pi)), 0⟩

/-- Position attribute of `THREE.CircleGeometry(radius, segments)`: one center
vertex followed by `segments + 1` perimeter vertices (angle 0 and angle 2π
both present). -/
def circleGeometryPositions (radius : ℝ) (segments : ℕ) : List (Vec3 ℝ) :=
  ⟨0, 0, 0⟩ :: (List.range (segments + 1)).map (circleVertex radius segments)

namespace PartA

/-- `G` (part_000 line 7). -/
def G : ℝ := 6.67430e-11

/-- `SCALE` (part_000 line 8). -/
def SCALE : ℝ := 1e12

/-- `MAX_FORCE` (part_000 line 10). -/
def MAX_FORCE : ℝ := 1e-4

/-- Dynamic state of one planet of the gravity demo (mesh `position` plus
`userData.velocity` / `userData.mass`). -/
structure Planet where
  position : Vec3 ℝ
  velocity : Vec3 ℝ
  mass : ℝ

/-- Force magnitude of `updatePlanetPositions` (part_000 lines 124-127):
`G * M * m / r²` clamped from above by `MAX_FORCE` via `Math.min`. -/
def forceMagnitude (sunMass planetMass distanceToSun : ℝ) : ℝ :=
  min (G * sunMass * planetMass / (distanceToSun * distanceToSun)) MAX_FORCE

/-- Acceleration computed in `updatePlanetPositions` (part_000 lines 122-132):
clamped force along the normalized direction to the sun, divided by the
planet's mass.  No zero-separation guard is present in the source. -/
def acceleration (sunPos planetPos : Vec3 ℝ) (sunMass planetMass : ℝ) : Vec3 ℝ :=
  let distanceToSun := dist3 planetPos sunPos
  let forceDirection := Vec3.normalize (sunPos - planetPos)
  let force := (forceMagnitude sunMass planetMass distanceToSun) • forceDirection
  force.divScalar planetMass

/-- Loop body of `updatePlanetPositions` (part_000 lines 131-137):
`velocity += acceleration * delta; position += velocity * (delta / SCALE)`. -/
def updatePlanet (sunPos : Vec3 ℝ) (sunMass delta : ℝ) (pl : Planet) : Planet :=
  let acc := acceleration sunPos pl.position sunMass pl.mass
  let velocity' := pl.velocity + delta • acc
  let positionDelta := (delta / SCALE) • velocity'
  { pl with velocity := velocity', position := pl.position + positionDelta }

/-- `updatePlanetPositions(delta)` (part_000 lines 120-139): every planet is
updated in the fixed iteration order of the planet array. -/
def updatePlanetPositions (sunPos : Vec3 ℝ) (sunMass delta : ℝ)
    (ps : List Planet) : List Planet :=
  ps.map (updatePlanet sunPos sunMass delta)

/-- Trajectory of the engine: the list of planet-list states after each step of
the supplied `delta` sequence.  The step reads nothing but its arguments. -/
def run (sunPos : Vec3 ℝ) (sunMass : ℝ) : List Planet → List ℝ → List (List Planet)
  | _, [] => []
  | ps, delta :: rest =>
    let ps' := updatePlanetPositions sunPos sunMass delta ps
    ps' :: run sunPos sunMass ps' rest

end PartA

/-- Concrete gravity-demo planet for determinism instantiation. -/
def pA1 : PartA.Planet := ⟨⟨30, 0, 0⟩, ⟨0, 0, 1⟩, 2e24⟩

namespace Solar

/-- `G` (solar-system.js line 7). -/
def G : ℝ := 6.67430e-11

/-- `SCALE` (solar-system.js line 8). -/
def SCALE : ℝ := 1e-9

/-- `VISUAL_SCALE` (solar-system.js line 9). -/
def VISUAL_SCALE : ℝ := 1000

/-- `this.trail.maxPoints` (solar-system.js line 90). -/
def maxPoints : ℕ := 1000

/-- `Planet.createOrbit` (solar-system.js lines 95-127): take the circle
geometry's position attribute, skip the center vertex (loop starts at index 1),
then append the first perimeter vertex again to close the loop. -/
def createOrbitPoints (radius : ℝ) (segments : ℕ) : List (Vec3 ℝ) :=
  let orbitVertices := (circleGeometryPositions radius segments).drop 1
  orbitVertices ++ orbitVertices.take 1

/-- A `Planet` of solar-system.js.  `mesh`, `material` and texture loading are
presentation-layer objects; the mesh rotation angle mutated by `update` is kept
as `rotationY`, and the orbit line's vertex list as `orbitPoints`. -/
structure Planet where
  name : String
  size : ℝ
  distance : ℝ
  mass : ℝ
  initialVelocity : Vec3 ℝ
  rotationSpeed : ℝ
  position : Vec3 ℝ
  velocity : Vec3 ℝ
  rotationY : ℝ
  orbitPoints : List (Vec3 ℝ)
  trailPoints : List (Vec3 ℝ)

/-- `Planet` constructor (solar-system.js lines 56-93): scaled size, position
`(distance, 0, 0) * SCALE`, velocity `initialVelocity * SCALE`, orbit line from
`createOrbit()` with 64 segments and radius `distance * SCALE`, empty trail. -/
def mkPlanet (name : String) (size distance mass : ℝ) (initialVelocity : Vec3 ℝ)
    (rotationSpeed : ℝ) : Planet :=
  { name := name, size := size * VISUAL_SCALE, distance := distance, mass := mass,
    initialVelocity := initialVelocity, rotationSpeed := rotationSpeed,
    position := SCALE • (⟨distance, 0, 0⟩ : Vec3 ℝ),
    velocity := SCALE • initialVelocity,
    rotationY := 0,
    orbitPoints := createOrbitPoints (distance * SCALE) 64,
    trailPoints := [] }

/-- Acceleration computed inside `Planet.update` (solar-system.js lines
142-150): direction to the sun, distance converted back to meters by `/ SCALE`,
unclamped `F = G*M*m/r²`, acceleration `direction * (F / m)`.  No
zero-separation guard is present in the source. -/
def acceleration (sunPos : Vec3 ℝ) (sunMass : ℝ) (p : Planet) : Vec3 ℝ :=
  let direction := sunPos - p.position
  let distance := norm3 direction / SCALE
  let forceMagnitude := G * sunMass * p.mass / (distance * distance)
  (forceMagnitude / p.mass) • direction.normalize

/-- `Planet.update(sun, delta)` (solar-system.js lines 140-166):
`velocity += acceleration * (delta * SCALE)`, then
`position += velocity * delta` using the updated velocity, then mesh rotation
and the trail push. -/
def Planet.update (sunPos : Vec3 ℝ) (sunMass delta : ℝ) (p : Planet) : Planet :=
  let acc := acceleration sunPos sunMass p
  let velocity' := p.velocity + (delta * SCALE) • acc
  let position' := p.position + delta • velocity'
  { p with velocity := velocity', position := position',
           rotationY := p.rotationY + p.rotationSpeed * delta,
           trailPoints := pushTrail maxPoints p.trailPoints position' }

/-- `Planet.reset` (solar-system.js lines 133-138): set position back to
`(distance * SCALE, 0, 0)` and velocity to `initialVelocity * SCALE`.  Nothing
else is touched (in particular the trail and orbit are kept). -/
def Planet.reset (p : Planet) : Planet :=
  { p with position := ⟨p.distance * SCALE, 0, 0⟩,
           velocity := SCALE • p.initialVelocity }

end Solar

/-- A concrete solar-system.js planet with empty trail for instantiations. -/
def earthS : Solar.Planet := Solar.mkPlanet ("Earth") 1 1 1 ⟨0, 1, 0⟩ 0

/-- `PartB` orbit line vertices (part_000 lines 188-198): the code comment says
the center vertex is removed, but the copy loop starts at index 0, so the whole
position attribute — center vertex included — is retained. -/
def PartB.orbitPoints (radius : ℝ) (segments : ℕ) : List (Vec3 ℝ) :=
  circleGeometryPositions radius segments

/-- `PartB` `Planet.updatePosition` (part_000 lines 204-210): the rendered mesh
position derived from the polar state,
`(distance * cos(angle), 0, distance * sin(angle))`. -/
def PartB.meshPosition (p : PartB.Planet) : Vec3 ℝ :=
  ⟨(p.distance : ℝ) * Real.cos (p.angle : ℝ), 0,
   (p.distance : ℝ) * Real.sin (p.angle : ℝ)⟩

end

/-! ## Component lemmas for `Vec3` -/

@[simp] theorem Vec3.add_x {α : Type} [Add α] (a b : Vec3 α) : (a + b).x = a.x + b.x := rfl
@[simp] theorem Vec3.add_y {α : Type} [Add α] (a b : Vec3 α) : (a + b).y = a.y + b.y := rfl
@[simp] theorem Vec3.add_z {α : Type} [Add α] (a b : Vec3 α) : (a + b).z = a.z + b.z := rfl
@[simp] theorem Vec3.sub_x {α : Type} [Sub α] (a b : Vec3 α) : (a - b).x = a.x - b.x := rfl
@[simp] theorem Vec3.sub_y {α : Type} [Sub α] (a b : Vec3 α) : (a - b).y = a.y - b.y := rfl
@[simp] theorem Vec3.sub_z {α : Type} [Sub α] (a b : Vec3 α) : (a - b).z = a.z - b.z := rfl
@[simp] theorem Vec3.smul_x {α : Type} [Mul α] (c : α) (v : Vec3 α) : (c • v).x = c * v.x := rfl
@[simp] theorem Vec3.smul_y {α : Type} [Mul α] (c : α) (v : Vec3 α) : (c • v).y = c * v.y := rfl
@[simp] theorem Vec3.smul_z {α : Type} [Mul α] (c : α) (v : Vec3 α) : (c • v).z = c * v.z := rfl
@[simp] theorem Vec3.divScalar_x {α : Type} [Div α] (v : Vec3 α) (s : α) :
    (v.divScalar s).x = v.x / s := rfl
@[simp] theorem Vec3.divScalar_y {α : Type} [Div α] (v : Vec3 α) (s : α) :
    (v.divScalar s).y = v.y / s := rfl
@[simp] theorem Vec3.divScalar_z {α : Type} [Div α] (v : Vec3 α) (s : α) :
    (v.divScalar s).z = v.z / s := rfl

theorem Vec3.ext3 {α : Type} {a b : Vec3 α} (hx : a.x = b.x) (hy : a.y = b.y)
    (hz : a.z = b.z) : a = b := by
  cases a; cases b; simp_all

theorem norm3_axis (a : ℝ) : norm3 ⟨a, 0, 0⟩ = |a| := by
  simp [norm3, Real.sqrt_mul_self_eq_abs]

theorem normalize_axis (a : ℝ) (h : a ≠ 0) :
    Vec3.normalize ⟨a, 0, 0⟩ = ⟨a / |a|, 0, 0⟩ := by
  have hne : ¬ (|a| = 0) := by simpa [abs_eq_zero] using h
  simp [Vec3.normalize, norm3_axis, Vec3.divScalar, hne]

/-! ## C1 — semi-implicit Euler order -/

/-- C1: the integrator is semi-implicit Euler in both gravity variants: one
step first sets the velocity to `velocity + acceleration * dt` (in
solar-system.js the acceleration vector used is the `SCALE`-converted
`SCALE • acceleration`, since its velocity is stored in scaled units), and then
sets the position to `position + (updated velocity) * dt / S`, with position
scale `S = SCALE = 1e12` in part_000 and `S = 1` in solar-system.js — in that
order within the same step, the position update reading the just-updated
velocity. -/
theorem c1_semi_implicit_euler (sunPos : Vec3 ℝ) (sunMass delta : ℝ)
    (pl : PartA.Planet) (p : Solar.Planet) :
    ((PartA.updatePlanet sunPos sunMass delta pl).velocity
        = pl.velocity + delta • PartA.acceleration sunPos pl.position sunMass pl.mass
      ∧ (PartA.updatePlanet sunPos sunMass delta pl).position
        = pl.position + (delta / PartA.SCALE) • (PartA.updatePlanet sunPos sunMass delta pl).velocity)
    ∧ ((Solar.Planet.update sunPos sunMass delta p).velocity
        = p.velocity + delta • (Solar.SCALE • Solar.acceleration sunPos sunMass p)
      ∧ (Solar.Planet.update sunPos sunMass delta p).position
        = p.position + delta • (Solar.Planet.update sunPos sunMass delta p).velocity) := by
  refine ⟨⟨rfl, rfl⟩, ?_, rfl⟩
  show p.velocity + (delta * Solar.SCALE) • Solar.acceleration sunPos sunMass p
      = p.velocity + delta • (Solar.SCALE • Solar.acceleration sunPos sunMass p)
  apply Vec3.ext3 <;> simp <;> ring

/-! ## C2 — force clamp -/

/-- C2: the force magnitude used by `updatePlanetPositions` is
`min(G * M * m / r², MAX_FORCE)`; whenever the unclamped force exceeds
`MAX_FORCE`, the computed magnitude equals exactly `MAX_FORCE`. -/
theorem c2_force_clamp (sunMass planetMass r : ℝ)
    (h : PartA.MAX_FORCE < PartA.G * sunMass * planetMass / (r * r)) :
    PartA.forceMagnitude sunMass planetMass r
        = min (PartA.G * sunMass * planetMass / (r * r)) PartA.MAX_FORCE
    ∧ PartA.forceMagnitude sunMass planetMass r = PartA.MAX_FORCE := by
  refine ⟨rfl, ?_⟩
  unfold PartA.forceMagnitude
  exact min_eq_right (le_of_lt h)

/-- Witness for C2: a pair at distance 1 whose unclamped force exceeds
`MAX_FORCE`, where the computed magnitude is exactly `MAX_FORCE`. -/
theorem c2_force_clamp_witness :
    PartA.MAX_FORCE < PartA.G * (10 ^ 31) * (2 * 10 ^ 24) / ((1 : ℝ) * 1)
    ∧ PartA.forceMagnitude (10 ^ 31) (2 * 10 ^ 24) 1 = PartA.MAX_FORCE := by
  have h : PartA.MAX_FORCE < PartA.G * (10 ^ 31) * (2 * 10 ^ 24) / ((1 : ℝ) * 1) := by
    norm_num [PartA.G, PartA.MAX_FORCE]
  exact ⟨h, (c2_force_clamp (10 ^ 31) (2 * 10 ^ 24) 1 h).2⟩

/-! ## C3 — reset restores the construction snapshot -/

/-- C3: after any number of prior `update` steps (with arbitrary per-step sun
position, sun mass and time step), `reset()` restores `position` and
`velocity` to exactly the values set by the constructor; the restored values
do not depend on the number of steps taken. -/
theorem c3_reset_restores (name : String) (size distance mass rotationSpeed : ℝ)
    (iv : Vec3 ℝ) (steps : List (Vec3 ℝ × ℝ × ℝ)) :
    ((steps.foldl (fun q sd => Solar.Planet.update sd.1 sd.2.1 sd.2.2 q)
        (Solar.mkPlanet name size distance mass iv rotationSpeed)).reset).position
      = (Solar.mkPlanet name size distance mass iv rotationSpeed).position
    ∧ ((steps.foldl (fun q sd => Solar.Planet.update sd.1 sd.2.1 sd.2.2 q)
        (Solar.mkPlanet name size distance mass iv rotationSpeed)).reset).velocity
      = (Solar.mkPlanet name size distance mass iv rotationSpeed).velocity := by
  have hpres : ∀ (l : List (Vec3 ℝ × ℝ × ℝ)) (q : Solar.Planet),
      (l.foldl (fun q sd => Solar.Planet.update sd.1 sd.2.1 sd.2.2 q) q).distance = q.distance
      ∧ (l.foldl (fun q sd => Solar.Planet.update sd.1 sd.2.1 sd.2.2 q) q).initialVelocity
          = q.initialVelocity := by
    intro l
    induction l with
    | nil => intro q; exact ⟨rfl, rfl⟩
    | cons sd rest ih =>
      intro q
      rw [List.foldl_cons]
      exact ih (Solar.Planet.update sd.1 sd.2.1 sd.2.2 q)
  obtain ⟨hd, hiv⟩ := hpres steps (Solar.mkPlanet name size distance mass iv rotationSpeed)
  constructor
  · show (⟨_, 0, 0⟩ : Vec3 ℝ) = _
    rw [hd]
    apply Vec3.ext3 <;> simp [Solar.mkPlanet] <;> ring
  · show Solar.SCALE • _ = _
    rw [hiv]
    rfl

/-! ## C9 — reset frame conditions -/

/-- C9: `reset()` mutates only `position` and `velocity`: the trail is kept
(not cleared), the orbit line is not recomputed, and every other field
(name, size, distance, mass, initial velocity, rotation speed, mesh rotation)
is unchanged. -/
theorem c9_reset_frame (p : Solar.Planet) :
    p.reset.trailPoints = p.trailPoints
    ∧ p.reset.orbitPoints = p.orbitPoints
    ∧ p.reset.name = p.name
    ∧ p.reset.size = p.size
    ∧ p.reset.distance = p.distance
    ∧ p.reset.mass = p.mass
    ∧ p.reset.initialVelocity = p.initialVelocity
    ∧ p.reset.rotationSpeed = p.rotationSpeed
    ∧ p.reset.rotationY = p.rotationY
    ∧ p.reset.position = ⟨p.distance * Solar.SCALE, 0, 0⟩
    ∧ p.reset.velocity = Solar.SCALE • p.initialVelocity :=
  ⟨rfl, rfl, rfl, rfl, rfl, rfl, rfl, rfl, rfl, rfl, rfl⟩

/-! ## Trail buffer: `push`-then-`shift` characterization -/

theorem pushTrail_eq_drop {α : Type} (cap : ℕ) (acc : List α) (x : α)
    (h : acc.length ≤ cap) :
    pushTrail cap acc x = (acc ++ [x]).drop ((acc ++ [x]).length - cap) := by
  simp only [pushTrail]
  by_cases hc : cap < (acc ++ [x]).length
  · rw [if_pos hc]
    have hl : (acc ++ [x]).length - cap = 1 := by
      simp only [List.length_append, List.length_singleton] at hc ⊢
      omega
    rw [hl, List.drop_one]
  · rw [if_neg hc]
    have hl : (acc ++ [x]).length - cap = 0 := by omega
    rw [hl, List.drop_zero]

theorem foldl_pushTrail_nil {α : Type} (cap : ℕ) (xs : List α) :
    xs.foldl (pushTrail cap) [] = xs.drop (xs.length - cap) := by
  induction xs using List.reverseRecOn with
  | nil => simp
  | append_singleton ys y ih =>
    rw [List.foldl_append, List.foldl_cons, List.foldl_nil, ih]
    have hle : (ys.drop (ys.length - cap)).length ≤ cap := by
      rw [List.length_drop]
      omega
    rw [pushTrail_eq_drop cap _ y hle]
    have h2 : ys.drop (ys.length - cap) ++ [y] = (ys ++ [y]).drop (ys.length - cap) :=
      (List.drop_append_of_le_length (Nat.sub_le _ _)).symm
    rw [h2, List.drop_drop]
    congr 1
    rw [List.length_drop]
    simp only [List.length_append, List.length_singleton]
    omega

/-! ## C4 — FIFO trail ring -/

/-- C4: the trail buffer is a FIFO ring.  Starting from an empty buffer and
pushing `cap + k` points with `pushTrail cap` leaves exactly `cap` points, the
`k` oldest points have been evicted (the result is `xs.drop k`, so the
survivors keep chronological order), the length after any prefix of the pushes
never exceeds `cap`, and the capacity used by solar-system.js is the default
1000. -/
theorem c4_trail_ring (cap k : ℕ) (xs : List (Vec3 ℝ)) (h : xs.length = cap + k) :
    Solar.maxPoints = 1000
    ∧ (xs.foldl (pushTrail cap) []).length = cap
    ∧ xs.foldl (pushTrail cap) [] = xs.drop k
    ∧ ∀ m, ((xs.take m).foldl (pushTrail cap) []).length ≤ cap := by
  have base := foldl_pushTrail_nil cap xs
  refine ⟨rfl, ?_, ?_, ?_⟩
  · rw [base, List.length_drop]
    omega
  · rw [base, h]
    congr 1
    omega
  · intro m
    rw [foldl_pushTrail_nil cap (xs.take m), List.length_drop]
    omega

/-- Witness for C4: capacity 2, three pushes — the oldest point is evicted and
the two newest remain in order. -/
theorem c4_trail_ring_witness :
    ([⟨1, 0, 0⟩, ⟨2, 0, 0⟩, ⟨3, 0, 0⟩] : List (Vec3 ℝ)).length = 2 + 1
    ∧ (([⟨1, 0, 0⟩, ⟨2, 0, 0⟩, ⟨3, 0, 0⟩] : List (Vec3 ℝ)).foldl (pushTrail 2) []).length = 2
    ∧ ([⟨1, 0, 0⟩, ⟨2, 0, 0⟩, ⟨3, 0, 0⟩] : List (Vec3 ℝ)).foldl (pushTrail 2) []
        = [⟨2, 0, 0⟩, ⟨3, 0, 0⟩] := by
  refine ⟨rfl, (c4_trail_ring 2 1 ([⟨1, 0, 0⟩, ⟨2, 0, 0⟩, ⟨3, 0, 0⟩] : List (Vec3 ℝ)) rfl).2.1, ?_⟩
  have h := (c4_trail_ring 2 1 ([⟨1, 0, 0⟩, ⟨2, 0, 0⟩, ⟨3, 0, 0⟩] : List (Vec3 ℝ)) rfl).2.2.1
  simpa using h

/-! ## C10 — trail entries are immutable snapshots -/

theorem solar_update_trail (sp : Vec3 ℝ) (sm d : ℝ) (p : Solar.Planet) :
    (Solar.Planet.update sp sm d p).trailPoints
      = pushTrail Solar.maxPoints p.trailPoints (Solar.Planet.update sp sm d p).position := rfl

theorem solar_trail_run (sp : Vec3 ℝ) (sm d : ℝ) (p0 : Solar.Planet)
    (h0 : p0.trailPoints = []) :
    ∀ n : ℕ, ((Solar.Planet.update sp sm d)^[n] p0).trailPoints
      = ((List.range n).map
          (fun i => ((Solar.Planet.update sp sm d)^[i + 1] p0).position)).foldl
          (pushTrail Solar.maxPoints) [] := by
  intro n
  induction n with
  | zero => simpa using h0
  | succ n ih =>
    rw [Function.iterate_succ_apply', solar_update_trail, ih]
    rw [List.range_succ n, List.map_append, List.foldl_append]
    simp only [List.map_cons, List.map_nil, List.foldl_cons, List.foldl_nil]
    rw [← Function.iterate_succ_apply' (Solar.Planet.update sp sm d) n p0]

/-- C10: each trail entry is an immutable snapshot.  Running `n` updates from a
body with an empty trail, the trail is exactly the chronological list of the
positions the body had immediately after steps `1..n`, minus the evicted
oldest entries once `n` exceeds the capacity: entry `i` of the (possibly
dropped) snapshot list always equals the position right after step `i + 1`, so
no later step rewrites a previously recorded point (and by C9, `reset` leaves
the trail untouched). -/
theorem c10_trail_snapshots (sp : Vec3 ℝ) (sm d : ℝ) (p0 : Solar.Planet)
    (h0 : p0.trailPoints = []) (n : ℕ) :
    ((Solar.Planet.update sp sm d)^[n] p0).trailPoints
      = ((List.range n).map
          (fun i => ((Solar.Planet.update sp sm d)^[i + 1] p0).position)).drop
          (n - Solar.maxPoints) := by
  rw [solar_trail_run sp sm d p0 h0 n]
  have hlen : ((List.range n).map
      (fun i => ((Solar.Planet.update sp sm d)^[i + 1] p0).position)).length = n := by
    simp
  rw [foldl_pushTrail_nil Solar.maxPoints, hlen]

/-- Witness for C10: one step from a freshly constructed planet records exactly
the position after that step. -/
theorem c10_trail_snapshots_witness :
    earthS.trailPoints = []
    ∧ ((Solar.Planet.update ⟨0, 0, 0⟩ 1 1)^[1] earthS).trailPoints
        = [((Solar.Planet.update ⟨0, 0, 0⟩ 1 1)^[1] earthS).position] := by
  constructor
  · rfl
  · have h := c10_trail_snapshots ⟨0, 0, 0⟩ 1 1 earthS rfl 1
    have h2 : (1 : ℕ) - Solar.maxPoints = 0 := by norm_num [Solar.maxPoints]
    have hr : List.range 1 = [0] := rfl
    rw [h, h2, List.drop_zero, hr, List.map_cons, List.map_nil]

/-! ## C5 — no zero-separation guard in the acceleration -/

/-- C5: evidence against the claim on the code side.  At separation `1e-6`
(below any reasonable epsilon) the source computes the acceleration with an
unguarded division by `r²`; with the clamp it yields the nonzero vector
`(-MAX_FORCE / m, 0, 0)`, not the zero vector required by the spec's policy.
Neither `updatePlanetPositions` nor solar-system.js `Planet.update` contains
the epsilon guard the spec mandates (the spec itself flags this as a latent
bug in the source). -/
theorem c5_unguarded_acceleration :
    dist3 (⟨1 / 10 ^ 6, 0, 0⟩ : Vec3 ℝ) ⟨0, 0, 0⟩ = 1 / 10 ^ 6
    ∧ dist3 (⟨1 / 10 ^ 6, 0, 0⟩ : Vec3 ℝ) ⟨0, 0, 0⟩ < 1 / 1000
    ∧ PartA.acceleration ⟨0, 0, 0⟩ ⟨1 / 10 ^ 6, 0, 0⟩ (10 ^ 31) (2 * 10 ^ 24)
        = ⟨-(1 / (2 * 10 ^ 28)), 0, 0⟩
    ∧ (⟨-(1 / (2 * 10 ^ 28)), 0, 0⟩ : Vec3 ℝ) ≠ ⟨0, 0, 0⟩ := by
  have hsub : ((⟨1 / 10 ^ 6, 0, 0⟩ : Vec3 ℝ) - ⟨0, 0, 0⟩) = (⟨1 / 10 ^ 6, 0, 0⟩ : Vec3 ℝ) := by
    apply Vec3.ext3 <;> simp
  have hdist : dist3 (⟨1 / 10 ^ 6, 0, 0⟩ : Vec3 ℝ) ⟨0, 0, 0⟩ = 1 / 10 ^ 6 := by
    rw [dist3, hsub, norm3_axis]
    norm_num
  have hsub2 : ((⟨0, 0, 0⟩ : Vec3 ℝ) - ⟨1 / 10 ^ 6, 0, 0⟩)
      = (⟨-(1 / 10 ^ 6), 0, 0⟩ : Vec3 ℝ) := by
    apply Vec3.ext3 <;> simp
  have hnorm : Vec3.normalize (⟨-(1 / 10 ^ 6 : ℝ), 0, 0⟩ : Vec3 ℝ) = ⟨-1, 0, 0⟩ := by
    rw [normalize_axis (-(1 / 10 ^ 6 : ℝ)) (by norm_num)]
    have habs : |(-(1 / 10 ^ 6 : ℝ))| = 1 / 10 ^ 6 := by
      rw [abs_neg, abs_of_pos]
      norm_num
    rw [habs]
    apply Vec3.ext3 <;> simp
  have hforce : PartA.forceMagnitude (10 ^ 31) (2 * 10 ^ 24) (1 / 10 ^ 6 : ℝ)
      = PartA.MAX_FORCE := by
    unfold PartA.forceMagnitude
    apply min_eq_right
    norm_num [PartA.G, PartA.MAX_FORCE]
  refine ⟨hdist, by rw [hdist]; norm_num, ?_, ?_⟩
  · show ((PartA.forceMagnitude (10 ^ 31) (2 * 10 ^ 24)
        (dist3 (⟨1 / 10 ^ 6, 0, 0⟩ : Vec3 ℝ) ⟨0, 0, 0⟩))
          • Vec3.normalize ((⟨0, 0, 0⟩ : Vec3 ℝ) - ⟨1 / 10 ^ 6, 0, 0⟩)).divScalar (2 * 10 ^ 24)
      = (⟨-(1 / (2 * 10 ^ 28)), 0, 0⟩ : Vec3 ℝ)
    rw [hdist, hsub2, hnorm, hforce]
    apply Vec3.ext3 <;> simp [PartA.MAX_FORCE] <;> norm_num
  · intro hcontra
    have hx := congrArg Vec3.x hcontra
    norm_num at hx

/-! ## C6 — negative dt / speed multiplier are not rejected -/

/-- C6: counterexample.  With `dt = -1` the stylized `Planet.update` is not
rejected: Mercury's angle changes, its rendered position moves (the z
coordinate leaves 0), the engine-level step changes the planet list, and
`setSpeedMultiplier` stores `-2` without any error.  The embedded functions
are total — the source has no error path at all for these inputs. -/
theorem c6_counterexample :
    (PartB.Planet.update (-1) 1 mercuryB).angle ≠ mercuryB.angle
    ∧ (PartB.System.step (-1) sysB).planets ≠ sysB.planets
    ∧ (PartB.meshPosition (PartB.Planet.update (-1) 1 mercuryB)).z
        ≠ (PartB.meshPosition mercuryB).z
    ∧ (PartB.setSpeedMultiplier sysB (-2)).speedMultiplier = -2 := by
  have hangle : (PartB.Planet.update (-1) 1 mercuryB).angle = -(1 / 50 : ℚ) := by
    show (0 : ℚ) + (0.02 : ℚ) * (-1) * 1 = -(1 / 50 : ℚ)
    norm_num
  have hangne : (PartB.Planet.update (-1) 1 mercuryB).angle ≠ mercuryB.angle := by
    rw [hangle]
    show -(1 / 50 : ℚ) ≠ (0 : ℚ)
    norm_num
  refine ⟨hangne, ?_, ?_, rfl⟩
  · intro hcontra
    simp only [PartB.System.step, sysB, List.map_cons, List.map_nil] at hcontra
    have h1 : PartB.Planet.update (-1) 1 mercuryB = mercuryB := (List.cons.injEq _ _ _ _ ▸ hcontra).1
    exact hangne (congrArg PartB.Planet.angle h1)
  · have hd : (PartB.Planet.update (-1) 1 mercuryB).distance = mercuryB.distance := rfl
    have hd15 : mercuryB.distance = (15 : ℚ) := rfl
    have ha0 : mercuryB.angle = 0 := rfl
    simp only [PartB.meshPosition, hd, hd15, ha0, hangle]
    push_cast
    rw [Real.sin_neg, Real.sin_zero, mul_zero]
    have hs : 0 < Real.sin (1 / 50) := by
      apply Real.sin_pos_of_pos_of_lt_pi
      · norm_num
      · have hpi := Real.pi_gt_three
        linarith
    intro hcontra
    nlinarith [hs, hcontra]

/-- C6 (amended): the source performs no validation of `dt` or the speed
multiplier.  A negative `dt` (and a negative multiplier value) is accepted and
applied by the same formulas as a positive one — the angle advances by
`speed * dt * multiplier`, the engine step maps this update over all planets,
and the stored multiplier simply becomes the given value.  (In the source the
GUI slider constrains the multiplier widget to `[0, 500]` and every call site
passes a fixed positive `dt`, so no rejection logic exists.) -/
theorem c6_no_validation (p : PartB.Planet) (delta mult : ℚ) (hdt : delta < 0)
    (s : PartB.System) (f : ℚ) (hf : f < 0) :
    (PartB.Planet.update delta mult p).angle = p.angle + p.speed * delta * mult
    ∧ (PartB.System.step delta s).planets
        = s.planets.map (PartB.Planet.update delta s.speedMultiplier)
    ∧ (PartB.setSpeedMultiplier s f).speedMultiplier = f :=
  ⟨rfl, rfl, rfl⟩

/-- Witness for the amended C6 at `dt = -1`, multiplier value `-2`. -/
theorem c6_no_validation_witness :
    ((-1 : ℚ) < 0) ∧ ((-2 : ℚ) < 0)
    ∧ (PartB.Planet.update (-1) 1 mercuryB).angle
        = mercuryB.angle + mercuryB.speed * (-1) * 1
    ∧ (PartB.setSpeedMultiplier sysB (-2)).speedMultiplier = -2 := by
  refine ⟨by norm_num, by norm_num, ?_, ?_⟩
  · exact (c6_no_validation mercuryB (-1) 1 (by norm_num) sysB (-2) (by norm_num)).1
  · exact (c6_no_validation mercuryB (-1) 1 (by norm_num) sysB (-2) (by norm_num)).2.2

/-! ## C7 — stepping is deterministic -/

/-- C7: stepping is deterministic.  The engine step is a pure function of the
planet states and the supplied time step (the embedding of
`updatePlanetPositions` reads no other input; the only randomness in the
source occurs at construction time, outside `step`), so two runs from equal
initial body sets under equal `dt` sequences produce equal trajectories —
identical positions and velocities for every body at every step index. -/
theorem c7_determinism (sunPos : Vec3 ℝ) (sunMass : ℝ) (ps₁ ps₂ : List PartA.Planet)
    (dts₁ dts₂ : List ℝ) (hps : ps₁ = ps₂) (hdts : dts₁ = dts₂) :
    PartA.run sunPos sunMass ps₁ dts₁ = PartA.run sunPos sunMass ps₂ dts₂
    ∧ ∀ i : ℕ, (PartA.run sunPos sunMass ps₁ dts₁)[i]?
        = (PartA.run sunPos sunMass ps₂ dts₂)[i]? := by
  subst hps
  subst hdts
  exact ⟨rfl, fun _ => rfl⟩

/-- Witness for C7: a concrete one-planet system stepped once. -/
theorem c7_determinism_witness :
    ([pA1] : List PartA.Planet) = [pA1]
    ∧ ([(1 : ℝ) / 60] : List ℝ) = [1 / 60]
    ∧ PartA.run ⟨0, 0, 0⟩ (10 ^ 31) [pA1] [1 / 60]
        = PartA.run ⟨0, 0, 0⟩ (10 ^ 31) [pA1] [1 / 60] :=
  ⟨rfl, rfl, (c7_determinism ⟨0, 0, 0⟩ (10 ^ 31) [pA1] [pA1] [1 / 60] [1 / 60] rfl rfl).1⟩

/-! ## C8 — orbit path geometry -/

/-- C8: counterexample.  With the source's segment count 64, solar-system.js
`createOrbit` produces 66 points, not 64 (the perimeter sampling includes both
angle 0 and angle 2π, and the first perimeter vertex is pushed again to close
the loop); and the part_000 stylized variant keeps the circle geometry's
center vertex `(0,0,0)` — a point at distance 0, not `radius`, from the
center — as its first orbit point. -/
theorem c8_counterexample :
    (Solar.createOrbitPoints (1 : ℝ) 64).length = 66
    ∧ ¬ ((Solar.createOrbitPoints (1 : ℝ) 64).length = 64)
    ∧ (PartB.orbitPoints (1 : ℝ) 64).head? = some ⟨0, 0, 0⟩ := by
  have hlen : (Solar.createOrbitPoints (1 : ℝ) 64).length = 66 := by
    simp only [Solar.createOrbitPoints, circleGeometryPositions, List.drop_succ_cons,
      List.drop_zero, List.length_append, List.length_take, List.length_map,
      List.length_range]
    omega
  exact ⟨hlen, by rw [hlen]; norm_num, rfl⟩

/-- C8 (amended): for every radius and segment count, the solar-system.js
orbit list has `segments + 2` points — the `segments + 1` evenly spaced
perimeter samples of `CircleGeometry` at angles `2π·k/segments` (`k = 0` and
`k = segments` coincide) followed by a repeat of the first perimeter point —
and every one of its points lies exactly on the circle of the given radius
about the origin-centered orbital (x,y) construction plane; point `k`
(`k ≤ segments`) is exactly the `k`-th circle sample.  The part_000 variant
additionally retains the center vertex `(0,0,0)` (its copy loop starts at
index 0 despite the comment saying the center vertex is removed), so there a
point at distance 0 from the center is included.  The source uses 64 segments,
not 360. -/
theorem c8_orbit_amended (radius : ℝ) (segments k : ℕ) (hk : k ≤ segments)
    (v : Vec3 ℝ) (hv : v ∈ Solar.createOrbitPoints radius segments) :
    (Solar.createOrbitPoints radius segments).length = segments + 2
    ∧ (v.x ^ 2 + v.y ^ 2 = radius ^ 2 ∧ v.z = 0)
    ∧ (Solar.createOrbitPoints radius segments)[k]? = some (circleVertex radius segments k)
    ∧ (PartB.orbitPoints radius segments).head? = some ⟨0, 0, 0⟩ := by
  have hM : Solar.createOrbitPoints radius segments
      = (List.range (segments + 1)).map (circleVertex radius segments)
        ++ ((List.range (segments + 1)).map (circleVertex radius segments)).take 1 := rfl
  refine ⟨?_, ?_, ?_, rfl⟩
  · rw [hM]
    simp only [List.length_append, List.length_take, List.length_map, List.length_range]
    omega
  · rw [hM] at hv
    have hv' : v ∈ (List.range (segments + 1)).map (circleVertex radius segments) := by
      rcases List.mem_append.mp hv with h | h
      · exact h
      · exact List.mem_of_mem_take h
    obtain ⟨s, hs, rfl⟩ := List.mem_map.mp hv'
    refine ⟨?_, rfl⟩
    show (radius * Real.cos ((s : ℝ) / (segments : ℝ) * (2 * Real.pi))) ^ 2
        + (radius * Real.sin ((s : ℝ) / (segments : ℝ) * (2 * Real.pi))) ^ 2 = radius ^ 2
    have hsc := Real.sin_sq_add_cos_sq ((s : ℝ) / (segments : ℝ) * (2 * Real.pi))
    nlinarith [hsc]
  · rw [hM]
    rw [List.getElem?_append_left (by simp only [List.length_map, List.length_range]; omega)]
    rw [List.getElem?_map]
    rw [List.getElem?_range (by omega)]
    rfl

/-- Witness for the amended C8 at radius 1, 64 segments, index 0. -/
theorem c8_orbit_amended_witness :
    ((0 : ℕ) ≤ 64 ∧ circleVertex 1 64 0 ∈ Solar.createOrbitPoints 1 64)
    ∧ (Solar.createOrbitPoints (1 : ℝ) 64).length = 64 + 2 := by
  have hv : circleVertex 1 64 0 ∈ Solar.createOrbitPoints 1 64 := by
    have hM : Solar.createOrbitPoints (1 : ℝ) 64
        = (List.range 65).map (circleVertex 1 64)
          ++ ((List.range 65).map (circleVertex 1 64)).take 1 := rfl
    rw [hM]
    exact List.mem_append_left _ (List.mem_map_of_mem _ (List.mem_range.mpr (by norm_num)))
  exact ⟨⟨Nat.zero_le 64, hv⟩,
    (c8_orbit_amended 1 64 0 (Nat.zero_le 64) (circleVertex 1 64 0) hv).1⟩
